import Mathlib

/-!
Shallow embedding of the click-classification and attribution pipeline of the
NoNAI click-tracking service (src/refer.py, with the unified-report variant of
src/click_tracking_analytics.py sharing the same per-row formatting logic).

Modelling conventions:
* Timestamps are integers (seconds).  The source works with wall-clock
  `datetime` / `time.time()` values; every comparison in the code is against an
  integral number of seconds (30, 60, 3600), so integer time is a faithful
  abstraction.
* SQL NULL is `Option.none`; Python `None` likewise.
* The PostgreSQL `posts`, `click_history` and `stats` tables are lists /
  counters held in a `TrackState` record; an `UPDATE ... WHERE tracking_id = x`
  maps over the list touching the rows whose key matches.
* Python dict `ip_tracker` is an association list updated in place.
* `random.choices` (the id generator) is modelled by an oracle
  `gen : Nat → Nat → String` giving the candidate produced at a given length
  and attempt index; the database-existence check becomes a membership test in
  a list of stored ids.
* Python floats in the report layer are rationals; `round(x, 1)` is
  round-half-to-even at one decimal, the rounding Python applies.
-/

/-- Fixed default redirect destination (`FINAL_DESTINATION` in refer.py). -/
def FINAL_DESTINATION : String := "https://nonai.life/"

/-- The deny-list of crawler/bot User-Agent signatures (`BOT_USER_AGENTS`). -/
def BOT_USER_AGENTS : List String :=
  ["facebookexternalhit", "Twitterbot", "LinkedInBot", "WhatsApp",
   "TelegramBot", "Slackbot", "Discordbot", "Googlebot", "Bingbot",
   "YandexBot", "DuckDuckBot", "Applebot", "Slurp", "ia_archiver",
   "Mediapartners-Google", "Bytespider", "Pinterest", "Iframely",
   "MetaInspector", "bot", "crawler", "spider", "scraper", "checker",
   "monitor", "headless", "selenium", "phantomjs", "puppeteer"]

/-- `needle` occurs as a contiguous substring of `hay` (Python `needle in hay`,
and `re.search` on the literal patterns of `is_bot_request`). -/
def isSubstr (needle : List Char) : List Char → Bool
  | [] => needle.isEmpty
  | c :: t => needle.isPrefixOf (c :: t) || isSubstr needle t

/-- ASCII lowercasing of a string as a char list (Python `str.lower` on the
ASCII user-agent strings involved). -/
def lowerChars (s : String) : List Char := s.toList.map Char.toLower

/-- Substring test on whole strings, case as given. -/
def strContains (hay needle : String) : Bool := isSubstr needle.toList hay.toList

/-- `is_bot_request(user_agent, ip)` from refer.py.  The `ip` argument is
unused by the decision logic in the source, so it is omitted here. -/
def is_bot_request (user_agent : String) : Bool :=
  if user_agent = "" then true
  else
    let ua := lowerChars user_agent
    if BOT_USER_AGENTS.any (fun b => isSubstr (lowerChars b) ua) then true
    else
      let browser_indicators : List String :=
        ["mozilla", "chrome", "safari", "firefox", "edge",
         "opera", "webkit", "gecko", "msie", "trident"]
      let mobile_indicators : List String :=
        ["mobile", "android", "iphone", "ipad", "ipod"]
      let has_browser := browser_indicators.any (fun i => isSubstr i.toList ua)
      let has_mobile := mobile_indicators.any (fun i => isSubstr i.toList ua)
      if !has_browser && !has_mobile then
        (["python", "requests", "urllib", "curl", "wget",
          "http-client", "go-http", "java", "okhttp"] : List String).any
          (fun p => isSubstr p.toList ua)
      else false

/-- In-memory abuse-limiter state: `(ip, tracking_id)` key →
`(last_event_time, count)` (the module-level `ip_tracker` dict). -/
abbrev IpTracker := List (String × (ℤ × Nat))

/-- Store a key/value pair in the tracker (Python `ip_tracker[key] = v`). -/
def setKey (tr : IpTracker) (k : String) (v : ℤ × Nat) : IpTracker :=
  (k, v) :: tr.filter (fun e => !(e.1 == k))

/-- `is_rate_limited(ip, tracking_id)` from refer.py, with the implicit current
time and the mutable `ip_tracker` dict made explicit.  Returns the decision and
the updated tracker. -/
def is_rate_limited (ip tracking_id : String) (current_time : ℤ)
    (tr : IpTracker) : Bool × IpTracker :=
  let key := ip ++ "_" ++ tracking_id
  match tr.lookup key with
  | some (last_time, count) =>
      if current_time - last_time > 3600 then
        (false, setKey tr key (current_time, 1))
      else if current_time - last_time < 60 ∧ count ≥ 5 then
        (true, tr)
      else
        (false, setKey tr key (current_time, count + 1))
  | none => (false, setKey tr key (current_time, 1))

/-- `clean_ip_tracker()` from refer.py: drop keys older than 3600 s. -/
def clean_ip_tracker (current_time : ℤ) (tr : IpTracker) : IpTracker :=
  tr.filter (fun e => !(current_time - e.2.1 > 3600))

/-- A row of the `posts` table. -/
structure Post where
  tracking_id : String
  username : Option String
  badge_type : Option String
  platform : Option String
  post_url : Option String
  clicks : Nat
  confirmed : Bool
  first_click : Option ℤ
  last_click : Option ℤ
  created_at : ℤ
  confirmed_at : Option ℤ
  concept_key : Option String
  ayrshare_post_id : Option String
  social_post_id : Option String
  nonai_user_id : Option ℤ
  referral_code : Option String
  referral_leads : Nat
  referral_conversions : Nat
  referral_last_synced : Option ℤ
deriving DecidableEq, Repr

/-- A row of the `click_history` table. -/
structure ClickEvent where
  tracking_id : String
  timestamp : ℤ
  platform : String
  badge_type : String
  ip : String
  user_agent : String
  is_human : Bool
  concept_key : Option String
deriving DecidableEq, Repr

/-- The mutable state touched by the redirect handler: the `posts` and
`click_history` tables, the single-row `stats` counter, and the in-memory
`ip_tracker`. -/
structure TrackState where
  posts : List Post
  click_history : List ClickEvent
  bot_requests_blocked : Nat
  ip_tracker : IpTracker
deriving DecidableEq, Repr

/-- Which branch of `track_click` handled the request.  Every branch other
than `counted` is a "Redirected-NoCount" outcome. -/
inductive ClickOutcome where
  | botBlocked
  | rateLimited
  | notFoundOrUnconfirmed
  | gracePeriodBlocked
  | counted
deriving DecidableEq, Repr

/-- Result of one `GET /t/{tracking_id}` request. -/
structure TrackResult where
  state : TrackState
  outcome : ClickOutcome
  redirect_url : String
deriving DecidableEq, Repr

/-- The redirect destination computed at the end of `track_click`:
`https://nonai.life/?ref=CODE` when the post carries a (Python-truthy, i.e.
non-empty) referral code, else `FINAL_DESTINATION`. -/
def referral_destination (referral_code : Option String) : String :=
  match referral_code with
  | some rc => if rc = "" then FINAL_DESTINATION else "https://nonai.life/?ref=" ++ rc
  | none => FINAL_DESTINATION

/-- Truncation used on the stored ip (`ip[:15] if ip else "unknown"`). -/
def truncate_ip (ip : String) : String :=
  if ip = "" then "unknown" else String.mk (ip.toList.take 15)

/-- Truncation used on the stored user agent (`user_agent[:100]`). -/
def truncate_ua (ua : String) : String := String.mk (ua.toList.take 100)

/-- The grace-period test: `confirmed_at` is present and
`now - confirmed_at < 30`. -/
def grace_blocked (q : Post) (now : ℤ) : Bool :=
  match q.confirmed_at with
  | some ca => now - ca < 30
  | none => false

/-- Effect of the counted-click `UPDATE` on one row:
`clicks = clicks + 1`, `last_click = now`,
`first_click = COALESCE(first_click, now)`. -/
def apply_click (now : ℤ) (q : Post) : Post :=
  { q with clicks := q.clicks + 1, last_click := some now,
           first_click := some (q.first_click.getD now) }

/-- `UPDATE posts SET ... WHERE tracking_id = tid`. -/
def update_posts_click (posts : List Post) (tid : String) (now : ℤ) : List Post :=
  posts.map (fun q => if q.tracking_id == tid then apply_click now q else q)

/-- The ClickEvent row inserted for a counted click. -/
def mk_click_event (tid p b ip ua : String) (now : ℤ) (concept_key : Option String) :
    ClickEvent :=
  { tracking_id := tid, timestamp := now, platform := p, badge_type := b,
    ip := truncate_ip ip, user_agent := truncate_ua ua, is_human := true,
    concept_key := concept_key }

/-- The `GET /t/{tracking_id}` handler `track_click` of refer.py: clean the
tracker, classify, rate-limit, look the post up, apply the grace-period check,
then count the click and compute the redirect. -/
def track_click (tid ua ip p b : String) (now : ℤ) (st : TrackState) : TrackResult :=
  let tr0 := clean_ip_tracker now st.ip_tracker
  if is_bot_request ua then
    { state := { st with bot_requests_blocked := st.bot_requests_blocked + 1,
                         ip_tracker := tr0 },
      outcome := ClickOutcome.botBlocked, redirect_url := FINAL_DESTINATION }
  else
    let rl := is_rate_limited ip tid now tr0
    let st1 : TrackState := { st with ip_tracker := rl.2 }
    if rl.1 then
      { state := st1, outcome := ClickOutcome.rateLimited,
        redirect_url := FINAL_DESTINATION }
    else
      match st1.posts.find? (fun q => q.tracking_id == tid) with
      | none =>
          { state := st1, outcome := ClickOutcome.notFoundOrUnconfirmed,
            redirect_url := FINAL_DESTINATION }
      | some post =>
          if post.confirmed = false then
            { state := st1, outcome := ClickOutcome.notFoundOrUnconfirmed,
              redirect_url := FINAL_DESTINATION }
          else if grace_blocked post now then
            { state := { st1 with
                           bot_requests_blocked := st1.bot_requests_blocked + 1 },
              outcome := ClickOutcome.gracePeriodBlocked,
              redirect_url := FINAL_DESTINATION }
          else
            { state := { st1 with
                           posts := update_posts_click st1.posts tid now,
                           click_history := st1.click_history ++
                             [mk_click_event tid p b ip ua now post.concept_key] },
              outcome := ClickOutcome.counted,
              redirect_url := referral_destination post.referral_code }

/-- Feed a sequence of request times for one `(ip, tracking_id)` key through
`is_rate_limited`, starting from a given tracker, collecting the decisions. -/
def run_rate_limiter_from (ip tid : String) (times : List ℤ) (tr : IpTracker) :
    List Bool × IpTracker :=
  match times with
  | [] => ([], tr)
  | t :: rest =>
      let step := is_rate_limited ip tid t tr
      let tail := run_rate_limiter_from ip tid rest step.2
      (step.1 :: tail.1, tail.2)

/-- Same, starting from the empty tracker. -/
def run_rate_limiter (ip tid : String) (times : List ℤ) : List Bool × IpTracker :=
  run_rate_limiter_from ip tid times []

/-- A row of an external engagement table (`concept_analytics` or
`concept_analytics_reels`).  The pass-through metric columns (likes, comments,
shares, impressions, reach, views, analytics_fetched_at) play no role in the
verified claims and are omitted. -/
structure EngagementRow where
  ayrshare_post_id : Option String
  platform : Option String
  engagement_score : Option ℚ
deriving DecidableEq, Repr

/-- SQL equality between two nullable values: `NULL = x` is never TRUE. -/
def sqlEqOpt (a b : Option String) : Bool :=
  match a, b with
  | some x, some y => x == y
  | _, _ => false

/-- The LEFT JOIN match of a post against one engagement table
(`ON r.ayrshare_post_id = p.ayrshare_post_id AND r.platform = p.platform`);
the tables key rows by `(ayrshare_post_id, platform)`, so the first match is
the joined row. -/
def find_engagement (t : List EngagementRow) (q : Post) : Option EngagementRow :=
  t.find? (fun r => sqlEqOpt r.ayrshare_post_id q.ayrshare_post_id &&
                    sqlEqOpt r.platform q.platform)

/-- Which of the two externally-owned engagement tables exist
(`information_schema.tables` probe); `none` = the table does not exist. -/
structure EngagementTables where
  concept_analytics : Option (List EngagementRow)
  concept_analytics_reels : Option (List EngagementRow)
deriving DecidableEq, Repr

/-- The `engagement_score` column of the unified-report SELECT for one post:
`COALESCE(ca.engagement_score, car.engagement_score)` when both tables exist,
the single table's column when only one exists, `NULL` when neither does. -/
def sql_engagement_score (tables : EngagementTables) (q : Post) : Option ℚ :=
  match tables.concept_analytics, tables.concept_analytics_reels with
  | some ca, some car =>
      ((find_engagement ca q).bind EngagementRow.engagement_score).or
        ((find_engagement car q).bind EngagementRow.engagement_score)
  | some ca, none => (find_engagement ca q).bind EngagementRow.engagement_score
  | none, some car => (find_engagement car q).bind EngagementRow.engagement_score
  | none, none => none

/-- The `content_type` column of the unified-report SELECT: a CASE over the
joined rows when both tables exist, the constant `'image'::text` /
`'reel'::text` when exactly one exists, `'unknown'::text` when neither does. -/
def sql_content_type (tables : EngagementTables) (q : Post) : String :=
  match tables.concept_analytics, tables.concept_analytics_reels with
  | some ca, some car =>
      if (find_engagement ca q).isSome then "image"
      else if (find_engagement car q).isSome then "reel"
      else "unknown"
  | some _, none => "image"
  | none, some _ => "reel"
  | none, none => "unknown"

/-- The `source_table` column of the unified-report SELECT. -/
def sql_source_table (tables : EngagementTables) (q : Post) : Option String :=
  match tables.concept_analytics, tables.concept_analytics_reels with
  | some ca, some car =>
      if (find_engagement ca q).isSome then some "concept_analytics"
      else if (find_engagement car q).isSome then some "concept_analytics_reels"
      else none
  | some _, none => some "concept_analytics"
  | none, some _ => some "concept_analytics_reels"
  | none, none => none

/-- Python `float(x) if x else None` applied to the fetched engagement score:
both SQL NULL and a score of exactly 0 map to `None`. -/
def py_score (x : Option ℚ) : Option ℚ :=
  match x with
  | some s => if s = 0 then none else some s
  | none => none

/-- One entry of the `posts` array of the unified report response (the fields
the verified claims are about). -/
structure UnifiedPostRow where
  tracking_id : String
  platform : Option String
  concept_key : Option String
  link_clicks : Nat
  engagement_score : Option ℚ
  content_type : String
  source_table : Option String
deriving DecidableEq, Repr

/-- The Python dict built for one post of the unified report. -/
def unified_post_row (tables : EngagementTables) (q : Post) : UnifiedPostRow :=
  { tracking_id := q.tracking_id, platform := q.platform,
    concept_key := q.concept_key, link_clicks := q.clicks,
    engagement_score := py_score (sql_engagement_score tables q),
    content_type := sql_content_type tables q,
    source_table := sql_source_table tables q }

/-- `ORDER BY confirmed_at DESC` comparison (PostgreSQL puts NULLs first in a
descending order). -/
def confirmed_at_desc (a b : Post) : Prop :=
  match a.confirmed_at, b.confirmed_at with
  | none, _ => True
  | some _, none => False
  | some x, some y => y ≤ x

instance : DecidableRel confirmed_at_desc := fun a b => by
  unfold confirmed_at_desc
  cases a.confirmed_at <;> cases b.confirmed_at <;> infer_instance

/-- The `posts` array of the unified report: confirmed posts, ordered by
`confirmed_at DESC`, `LIMIT 200`, each formatted by `unified_post_row`. -/
def unified_report_posts (posts : List Post) (tables : EngagementTables) :
    List UnifiedPostRow :=
  ((((posts.filter (fun q => q.confirmed)).insertionSort confirmed_at_desc).take
      200).map (unified_post_row tables))

/-- Round-half-to-even to an integer, the rounding Python's `round` applies. -/
def roundHalfEven (x : ℚ) : ℤ :=
  if x - ⌊x⌋ < 1/2 then ⌊x⌋
  else if 1/2 < x - ⌊x⌋ then ⌊x⌋ + 1
  else if ⌊x⌋ % 2 = 0 then ⌊x⌋ else ⌊x⌋ + 1

/-- Python `round(x, 1)`. -/
def pyRound1 (x : ℚ) : ℚ := (roundHalfEven (x * 10) : ℚ) / 10

/-- Python `int(n or 1)` on a non-negative count: 0 becomes 1. -/
def pyOr1 (n : Nat) : Nat := if n = 0 then 1 else n

/-- The derived per-post fields of the referral report (`/api/referral-report`):
`funnel_score` computed in SQL as
`clicks + referral_leads * 10 + referral_conversions * 50`, and the two rates
computed in Python as
`round(int(leads or 0) / max(int(clicks or 1), 1) * 100, 1)` and
`round(int(conversions or 0) / max(int(leads or 1), 1) * 100, 1)`. -/
structure ReferralPostOut where
  funnel_score : Nat
  lead_to_click_rate : ℚ
  conversion_rate : ℚ
deriving DecidableEq, Repr

/-- Per-post derived fields of the referral report for one post row. -/
def referral_post_out (q : Post) : ReferralPostOut :=
  { funnel_score := q.clicks + q.referral_leads * 10 + q.referral_conversions * 50,
    lead_to_click_rate :=
      pyRound1 ((q.referral_leads : ℚ) / (max (pyOr1 q.clicks) 1 : Nat) * 100),
    conversion_rate :=
      pyRound1 ((q.referral_conversions : ℚ) /
        (max (pyOr1 q.referral_leads) 1 : Nat) * 100) }

/-- A row of the referral report's per-user summary (`by_user`). -/
structure ReferralUserRow where
  nonai_user_id : Option ℤ
  poster_username : Option String
  total_posts : Nat
  total_link_clicks : Nat
  total_leads : Nat
  total_conversions : Nat
deriving DecidableEq, Repr

/-- The WHERE clause of the per-user summary: confirmed, with a referral code,
with a non-null `nonai_user_id`. -/
def referral_user_eligible (q : Post) : Bool :=
  q.confirmed && q.referral_code.isSome && q.nonai_user_id.isSome

/-- The aggregate row for one `GROUP BY nonai_user_id, username` group:
`COUNT(*)`, `SUM(clicks)`, `SUM(referral_leads)`,
`MAX(referral_conversions)`. -/
def user_row (elig : List Post) (k : Option ℤ × Option String) : ReferralUserRow :=
  let grp := elig.filter (fun q => (q.nonai_user_id, q.username) = k)
  { nonai_user_id := k.1, poster_username := k.2,
    total_posts := grp.length,
    total_link_clicks := (grp.map Post.clicks).sum,
    total_leads := (grp.map Post.referral_leads).sum,
    total_conversions := (grp.map Post.referral_conversions).foldr max 0 }

/-- `ORDER BY total_leads DESC` on user rows. -/
def user_leads_desc (a b : ReferralUserRow) : Prop :=
  b.total_leads ≤ a.total_leads

instance : DecidableRel user_leads_desc := fun _ _ => by
  unfold user_leads_desc; infer_instance

/-- The `by_user` summary of the referral report: one aggregate row per
distinct `(nonai_user_id, username)` pair among eligible posts, ordered by
total leads descending. -/
def by_user_rows (posts : List Post) : List ReferralUserRow :=
  let elig := posts.filter referral_user_eligible
  (((elig.map (fun q => (q.nonai_user_id, q.username))).dedup).map
      (user_row elig)).insertionSort user_leads_desc

/-- `generate_unique_short_id(length, max_attempts)` from refer.py, with the
database replaced by the list `store` of existing tracking ids, randomness by
the candidate oracle `gen` (candidate at a given length and attempt index),
and the unbounded length-growth recursion bounded by `fuel` (the source
enforces no bound; `none` models non-termination, never reached in the claims
proved below). -/
def generate_unique_short_id (store : List String) (gen : Nat → Nat → String) :
    Nat → Nat → Nat → Option String
  | 0, _, _ => none
  | fuel + 1, length, max_attempts =>
      match (List.range max_attempts).findSome? (fun attempt =>
          let short_id := gen length attempt
          if store.contains short_id then none else some short_id) with
      | some short_id => some short_id
      | none => generate_unique_short_id store gen fuel (length + 1) max_attempts

/-! ### Concrete states used to instantiate the theorems -/

/-- A confirmed post with every column populated the way
`/api/generate-tracking-url` + `/api/confirm-post` populate them. -/
def basePost : Post :=
  { tracking_id := "aB3xK9", username := some "alice", badge_type := some "gold",
    platform := some "facebook", post_url := some "https://example.com/p/1",
    clicks := 0, confirmed := true, first_click := none, last_click := none,
    created_at := 0, confirmed_at := some 0, concept_key := some "c1",
    ayrshare_post_id := some "AY1", social_post_id := none,
    nonai_user_id := some 1, referral_code := none, referral_leads := 0,
    referral_conversions := 0, referral_last_synced := none }

/-- A human browser User-Agent (matches the `mozilla` browser indicator and no
deny-list entry). -/
def humanUA : String := "Mozilla/5.0"

/-- The base post carrying a referral code. -/
def c1post : Post := { basePost with referral_code := some "RC42" }

/-- Store holding only the referral-coded post, empty history and tracker. -/
def c1state : TrackState :=
  { posts := [c1post], click_history := [], bot_requests_blocked := 0,
    ip_tracker := [] }

/-- The post of the referral-report example: 10 clicks, 2 leads,
1 conversion. -/
def c7post : Post :=
  { basePost with clicks := 10, referral_leads := 2, referral_conversions := 1,
                  referral_code := some "RC42" }

/-- Two referral-coded confirmed posts of the same NonAI user published under
two different usernames. -/
def c9postA : Post :=
  { basePost with tracking_id := "usrAAA", username := some "alice",
                  referral_code := some "RCA", clicks := 2,
                  referral_leads := 1, referral_conversions := 5 }

/-- Second post of the same user, under username "bob". -/
def c9postB : Post :=
  { basePost with tracking_id := "usrBBB", username := some "bob",
                  referral_code := some "RCB", clicks := 3,
                  referral_leads := 1, referral_conversions := 7 }

/-! ### Theorems -/

/-- `List.contains` agrees with membership for strings. -/
theorem contains_iff_mem {l : List String} {s : String} :
    l.contains s = true ↔ s ∈ l := by
  simp [List.contains, List.elem_iff]

/-- C4: a redirect request with empty (or missing) User-Agent is classified as
bot; the handler increments the GlobalCounter and leaves every Link's clicks
and the ClickEvent store untouched, for every tracking_id and stored state. -/
theorem claim_C4_empty_ua_bot :
    is_bot_request "" = true ∧
    ∀ (tid ip p b : String) (now : ℤ) (st : TrackState),
      (track_click tid "" ip p b now st).outcome = ClickOutcome.botBlocked ∧
      (track_click tid "" ip p b now st).state.bot_requests_blocked
        = st.bot_requests_blocked + 1 ∧
      (track_click tid "" ip p b now st).state.posts = st.posts ∧
      (track_click tid "" ip p b now st).state.click_history = st.click_history := by
  refine ⟨rfl, fun tid ip p b now st => ?_⟩
  simp [track_click, is_bot_request]

/-- C1 (amended): every non-counted branch of `track_click` redirects to the
fixed default destination; only the counted branch redirects to the
referral-code-bearing URL of the stored Link (falling back to the default when
the Link carries no referral code), so for a Link without a referral code the
redirect target is independent of the classification outcome. -/
theorem claim_C1_redirect_targets (tid ua ip p b : String) (now : ℤ) (st : TrackState) :
    ((track_click tid ua ip p b now st).outcome ≠ ClickOutcome.counted →
       (track_click tid ua ip p b now st).redirect_url = FINAL_DESTINATION) ∧
    ((track_click tid ua ip p b now st).outcome = ClickOutcome.counted →
       ∃ q, st.posts.find? (fun r => r.tracking_id == tid) = some q ∧
         (track_click tid ua ip p b now st).redirect_url
           = referral_destination q.referral_code) ∧
    (∀ q, st.posts.find? (fun r => r.tracking_id == tid) = some q →
       q.referral_code = none →
       (track_click tid ua ip p b now st).redirect_url = FINAL_DESTINATION) := by
  unfold track_click
  by_cases hb : is_bot_request ua
  · simp [hb]
  · simp only [hb, Bool.false_eq_true, if_false]
    by_cases hrl : (is_rate_limited ip tid now (clean_ip_tracker now st.ip_tracker)).1
    · simp [hrl]
    · simp only [hrl, Bool.false_eq_true, if_false]
      rcases hfind : st.posts.find? (fun r => r.tracking_id == tid) with _ | q
      · simp [hfind]
      · simp only [hfind]
        by_cases hc : q.confirmed
        · by_cases hg : grace_blocked q now
          · simp [hc, hg]
          · simp only [hc, hg, Bool.false_eq_true, if_false, if_true]
            refine ⟨?_, ?_, ?_⟩
            · intro h; exact absurd rfl h
            · intro _; exact ⟨q, rfl, rfl⟩
            · intro q' hq' hnone
              cases hq'
              simp [referral_destination, hnone]
        · simp [hc]

/-- C1 (counterexample to the claim as stated): for a Link carrying a referral
code, a human (counted) hit and a bot hit on the same state receive different
redirect URLs — the bot hit does not receive the referral-code-bearing URL. -/
theorem claim_C1_counterexample :
    (track_click "aB3xK9" humanUA "9.9.9.9" "facebook" "gold" 100 c1state).outcome
        = ClickOutcome.counted ∧
    (track_click "aB3xK9" "" "9.9.9.9" "facebook" "gold" 100 c1state).outcome
        = ClickOutcome.botBlocked ∧
    (track_click "aB3xK9" humanUA "9.9.9.9" "facebook" "gold" 100 c1state).redirect_url
        = "https://nonai.life/?ref=RC42" ∧
    (track_click "aB3xK9" "" "9.9.9.9" "facebook" "gold" 100 c1state).redirect_url
        = FINAL_DESTINATION ∧
    ("https://nonai.life/?ref=RC42" : String) ≠ FINAL_DESTINATION := by
  decide

/-- Witness for `claim_C1_redirect_targets` at a concrete counted request. -/
theorem claim_C1_witness :
    ∃ q, c1state.posts.find? (fun r => r.tracking_id == "aB3xK9") = some q ∧
      (track_click "aB3xK9" humanUA "9.9.9.9" "facebook" "gold" 100
          c1state).redirect_url = referral_destination q.referral_code :=
  (claim_C1_redirect_targets "aB3xK9" humanUA "9.9.9.9" "facebook" "gold" 100 c1state).2.1
    (by decide)

/-- Looking a tracking id up after the counted-click `UPDATE` yields the
updated row. -/
theorem find?_update_posts (posts : List Post) (tid : String) (now : ℤ) :
    (update_posts_click posts tid now).find? (fun q => q.tracking_id == tid)
      = (posts.find? (fun q => q.tracking_id == tid)).map (apply_click now) := by
  induction posts with
  | nil => rfl
  | cons q rest ih =>
      simp only [update_posts_click, List.map_cons] at ih ⊢
      by_cases h : (q.tracking_id == tid) = true
      · rw [if_pos h,
          List.find?_cons_of_pos (p := fun r : Post => r.tracking_id == tid) _
            (show ((apply_click now q).tracking_id == tid) = true from h),
          List.find?_cons_of_pos (p := fun r : Post => r.tracking_id == tid) _ h]
        rfl
      · rw [if_neg h,
          List.find?_cons_of_neg (p := fun r : Post => r.tracking_id == tid) _
            (by simpa using h),
          List.find?_cons_of_neg (p := fun r : Post => r.tracking_id == tid) _
            (by simpa using h)]
        exact ih

/-- C2: on a confirmed Link with `confirmed_at = T`, a human non-rate-limited
request at `T + 29` hits the grace period: GlobalCounter is incremented, the
posts and click history are untouched, outcome is a no-count redirect; the
same request at `T + 31` is counted and increments that Link's clicks by 1. -/
theorem claim_C2_grace_period (tid ua ip p b : String) (T : ℤ) (st : TrackState)
    (q : Post)
    (hfind : st.posts.find? (fun r => r.tracking_id == tid) = some q)
    (hconf : q.confirmed = true)
    (hat : q.confirmed_at = some T)
    (hua : is_bot_request ua = false)
    (hrl29 : (is_rate_limited ip tid (T + 29)
        (clean_ip_tracker (T + 29) st.ip_tracker)).1 = false)
    (hrl31 : (is_rate_limited ip tid (T + 31)
        (clean_ip_tracker (T + 31) st.ip_tracker)).1 = false) :
    ((track_click tid ua ip p b (T + 29) st).outcome
        = ClickOutcome.gracePeriodBlocked ∧
     (track_click tid ua ip p b (T + 29) st).state.bot_requests_blocked
        = st.bot_requests_blocked + 1 ∧
     (track_click tid ua ip p b (T + 29) st).state.posts = st.posts ∧
     (track_click tid ua ip p b (T + 29) st).state.click_history
        = st.click_history) ∧
    ((track_click tid ua ip p b (T + 31) st).outcome = ClickOutcome.counted ∧
     (track_click tid ua ip p b (T + 31) st).state.posts.find?
        (fun r => r.tracking_id == tid) = some (apply_click (T + 31) q) ∧
     (apply_click (T + 31) q).clicks = q.clicks + 1) := by
  have hg29 : grace_blocked q (T + 29) = true := by
    simp [grace_blocked, hat]
  have hg31 : grace_blocked q (T + 31) = false := by
    simp [grace_blocked, hat]
  constructor
  · unfold track_click
    simp [hua, hrl29, hfind, hconf, hg29]
  · unfold track_click
    simp [hua, hrl31, hfind, hconf, hg31, find?_update_posts, apply_click]

/-- Witness for `claim_C2_grace_period` on a concrete confirmed post with
`confirmed_at = 0`. -/
theorem claim_C2_witness :
    ((track_click "aB3xK9" humanUA "9.9.9.9" "facebook" "gold" (0 + 29)
          c1state).outcome = ClickOutcome.gracePeriodBlocked ∧
     (track_click "aB3xK9" humanUA "9.9.9.9" "facebook" "gold" (0 + 29)
          c1state).state.bot_requests_blocked
        = c1state.bot_requests_blocked + 1 ∧
     (track_click "aB3xK9" humanUA "9.9.9.9" "facebook" "gold" (0 + 29)
          c1state).state.posts = c1state.posts ∧
     (track_click "aB3xK9" humanUA "9.9.9.9" "facebook" "gold" (0 + 29)
          c1state).state.click_history = c1state.click_history) ∧
    ((track_click "aB3xK9" humanUA "9.9.9.9" "facebook" "gold" (0 + 31)
          c1state).outcome = ClickOutcome.counted ∧
     (track_click "aB3xK9" humanUA "9.9.9.9" "facebook" "gold" (0 + 31)
          c1state).state.posts.find? (fun r => r.tracking_id == "aB3xK9")
        = some (apply_click (0 + 31) c1post) ∧
     (apply_click (0 + 31) c1post).clicks = c1post.clicks + 1) :=
  claim_C2_grace_period "aB3xK9" humanUA "9.9.9.9" "facebook" "gold" 0 c1state
    c1post (by decide) (by decide) (by decide) (by decide) (by decide) (by decide)

/-- First call for a key: state is created as `(now, 1)`, not limited. -/
theorem rate_limited_fresh (ip tid : String) (t : ℤ) :
    is_rate_limited ip tid t [] = (false, [(ip ++ "_" ++ tid, (t, 1))]) := rfl

/-- A call within the 1-hour window that does not trip the burst cap
increments the counter and refreshes the timestamp. -/
theorem rate_limited_count (ip tid : String) (t last : ℤ) (c : Nat)
    (h1 : ¬ t - last > 3600) (h2 : ¬ (t - last < 60 ∧ c ≥ 5)) :
    is_rate_limited ip tid t [(ip ++ "_" ++ tid, (last, c))]
      = (false, [(ip ++ "_" ++ tid, (t, c + 1))]) := by
  simp [is_rate_limited, List.lookup, setKey, h1, h2]

/-- A call within 60 s of the last event with the counter at the cap is
limited; the state is left untouched. -/
theorem rate_limited_burst (ip tid : String) (t last : ℤ) (c : Nat)
    (h1 : ¬ t - last > 3600) (h2 : t - last < 60) (h3 : c ≥ 5) :
    is_rate_limited ip tid t [(ip ++ "_" ++ tid, (last, c))]
      = (true, [(ip ++ "_" ++ tid, (last, c))]) := by
  simp [is_rate_limited, List.lookup, setKey, h1, h2, h3]

/-- A call more than 3600 s after the last event resets the key. -/
theorem rate_limited_reset (ip tid : String) (t last : ℤ) (c : Nat)
    (h1 : t - last > 3600) :
    is_rate_limited ip tid t [(ip ++ "_" ++ tid, (last, c))]
      = (false, [(ip ++ "_" ++ tid, (t, 1))]) := by
  simp [is_rate_limited, List.lookup, setKey, h1]

/-- C3 (counterexample to the claim as stated): a burst at times
0,10,20,30,40 with the limited 6th call at 50, followed by a call at 3601 —
more than 3600 s after the FIRST request — yields not-limited but leaves the
per-key counter at 6: the counter does not reset, because the reset condition
compares against the LAST event time (40), and 3601 - 40 ≤ 3600. -/
theorem claim_C3_counterexample :
    run_rate_limiter "9.9.9.9" "aB3xK9" [0, 10, 20, 30, 40, 50, 3601]
      = ([false, false, false, false, false, true, false],
         [("9.9.9.9_aB3xK9", (3601, 6))]) ∧
    ((3601 : ℤ) - 0 > 3600) ∧ ((6 : Nat) ≠ 1) := by
  decide

/-- C3 (amended): from empty limiter state, 5 calls inside one 60-second
window are all not-limited, a 6th call inside that window is limited, and a
later call more than 3600 s after the LAST not-limited call of the burst
resets the per-key counter to `(t7, 1)` and is itself not limited.  (A call
merely more than 3600 s after the first request of the burst is also
not-limited, but need not reset the counter.) -/
theorem claim_C3_limiter_behavior (ip tid : String) (t1 t2 t3 t4 t5 t6 t7 : ℤ)
    (h12 : t1 ≤ t2) (h23 : t2 ≤ t3) (h34 : t3 ≤ t4) (h45 : t4 ≤ t5)
    (h56 : t5 ≤ t6) (hwin : t6 - t1 < 60) (hreset : t7 - t5 > 3600) :
    run_rate_limiter ip tid [t1, t2, t3, t4, t5, t6, t7]
      = ([false, false, false, false, false, true, false],
         [(ip ++ "_" ++ tid, (t7, 1))]) := by
  have e1 := rate_limited_fresh ip tid t1
  have e2 := rate_limited_count ip tid t2 t1 1 (by omega) (by omega)
  have e3 := rate_limited_count ip tid t3 t2 2 (by omega) (by omega)
  have e4 := rate_limited_count ip tid t4 t3 3 (by omega) (by omega)
  have e5 := rate_limited_count ip tid t5 t4 4 (by omega) (by omega)
  have e6 := rate_limited_burst ip tid t6 t5 5 (by omega) (by omega) (by omega)
  have e7 := rate_limited_reset ip tid t7 t5 5 (by omega)
  simp only [run_rate_limiter, run_rate_limiter_from, e1, e2, e3, e4, e5, e6, e7]

/-- Witness for `claim_C3_limiter_behavior`: burst at time 0, 6th call at 30, reset
call at 3700. -/
theorem claim_C3_witness :
    run_rate_limiter "9.9.9.9" "aB3xK9" [0, 0, 0, 0, 0, 30, 3700]
      = ([false, false, false, false, false, true, false],
         [("9.9.9.9" ++ "_" ++ "aB3xK9", (3700, 1))]) :=
  claim_C3_limiter_behavior "9.9.9.9" "aB3xK9" 0 0 0 0 0 30 3700 (by decide) (by decide)
    (by decide) (by decide) (by decide) (by decide) (by decide)

/-- C5: invariant of the click-recording operation (posts keyed uniquely by
tracking_id, as the PRIMARY KEY guarantees).  An unconfirmed Link is never
touched by a counted click — it survives unchanged and no appended ClickEvent
references it; every non-counted request leaves posts and click history
unchanged; a counted request updates exactly the looked-up confirmed Link:
clicks go up by exactly 1, `last_click` is set to now, `first_click` is
preserved when already set and initialised to now otherwise, and exactly one
ClickEvent carrying the Link's concept_key is appended. -/
theorem claim_C5_invariant (tid ua ip p b : String) (now : ℤ) (st : TrackState)
    (hnd : (st.posts.map Post.tracking_id).Nodup) :
    (∀ r ∈ st.posts, r.confirmed = false →
       r ∈ (track_click tid ua ip p b now st).state.posts ∧
       ∀ e ∈ (track_click tid ua ip p b now st).state.click_history,
         e ∈ st.click_history ∨ e.tracking_id ≠ r.tracking_id) ∧
    ((track_click tid ua ip p b now st).outcome ≠ ClickOutcome.counted →
       (track_click tid ua ip p b now st).state.posts = st.posts ∧
       (track_click tid ua ip p b now st).state.click_history
         = st.click_history) ∧
    ((track_click tid ua ip p b now st).outcome = ClickOutcome.counted →
       ∃ q, st.posts.find? (fun r => r.tracking_id == tid) = some q ∧
         q.confirmed = true ∧
         (track_click tid ua ip p b now st).state.posts
           = update_posts_click st.posts tid now ∧
         (track_click tid ua ip p b now st).state.click_history
           = st.click_history ++ [mk_click_event tid p b ip ua now q.concept_key] ∧
         (apply_click now q).clicks = q.clicks + 1 ∧
         (apply_click now q).last_click = some now ∧
         (∀ t0, q.first_click = some t0 →
            (apply_click now q).first_click = some t0) ∧
         (q.first_click = none → (apply_click now q).first_click = some now)) := by
  have key :
      ((track_click tid ua ip p b now st).state.posts = st.posts ∧
       (track_click tid ua ip p b now st).state.click_history = st.click_history ∧
       (track_click tid ua ip p b now st).outcome ≠ ClickOutcome.counted) ∨
      (∃ q, st.posts.find? (fun r => r.tracking_id == tid) = some q ∧
         q.confirmed = true ∧
         (track_click tid ua ip p b now st).state.posts
           = update_posts_click st.posts tid now ∧
         (track_click tid ua ip p b now st).state.click_history
           = st.click_history ++ [mk_click_event tid p b ip ua now q.concept_key] ∧
         (track_click tid ua ip p b now st).outcome = ClickOutcome.counted) := by
    unfold track_click
    by_cases hb : is_bot_request ua
    · left; simp [hb]
    · simp only [hb, Bool.false_eq_true, if_false]
      by_cases hrl : (is_rate_limited ip tid now (clean_ip_tracker now st.ip_tracker)).1
      · left; simp [hrl]
      · simp only [hrl, Bool.false_eq_true, if_false]
        rcases hfind : st.posts.find? (fun r => r.tracking_id == tid) with _ | q
        · left; simp [hfind]
        · simp only [hfind]
          by_cases hc : q.confirmed
          · by_cases hg : grace_blocked q now
            · left; simp [hc, hg]
            · right; exact ⟨q, rfl, hc, by simp [hc, hg], by simp [hc, hg],
                by simp [hc, hg]⟩
          · left; simp [hc]
  rcases key with ⟨hp, hh, hout⟩ | ⟨q, hfind, hconf, hp, hh, hout⟩
  · refine ⟨?_, fun _ => ⟨hp, hh⟩, fun h => absurd h hout⟩
    intro r hr _
    exact ⟨hp ▸ hr, fun e he => Or.inl (hh ▸ he)⟩
  · have hq' : q ∈ st.posts := List.mem_of_find?_eq_some hfind
    have hqtid : q.tracking_id = tid := by simpa using List.find?_some hfind
    refine ⟨?_, fun hne => absurd hout hne, fun _ =>
      ⟨q, hfind, hconf, hp, hh, rfl, rfl,
        fun t0 ht0 => by simp [apply_click, ht0],
        fun h0 => by simp [apply_click, h0]⟩⟩
    intro r hr hrc
    have hne : r.tracking_id ≠ tid := by
      intro hrt
      have hrq : r = q :=
        List.inj_on_of_nodup_map hnd hr hq' (by rw [hrt, hqtid])
      rw [hrq, hconf] at hrc
      exact absurd hrc (by decide)
    constructor
    · rw [hp]
      simp only [update_posts_click]
      exact List.mem_map.mpr ⟨r, hr, by simp [hne]⟩
    · intro e he
      rw [hh] at he
      rcases List.mem_append.mp he with h | h
      · exact Or.inl h
      · right
        have he' : e = mk_click_event tid p b ip ua now q.concept_key := by
          simpa using h
        rw [he']
        exact Ne.symm hne

/-- Witness for `claim_C5_invariant`: a bot request on a concrete state leaves
the posts and click history unchanged. -/
theorem claim_C5_witness :
    (track_click "aB3xK9" "" "9.9.9.9" "facebook" "gold" 100 c1state).state.posts
        = c1state.posts ∧
    (track_click "aB3xK9" "" "9.9.9.9" "facebook" "gold" 100
        c1state).state.click_history = c1state.click_history :=
  (claim_C5_invariant "aB3xK9" "" "9.9.9.9" "facebook" "gold" 100 c1state
      (by decide)).2.1 (by decide)

/-- C6 (amended): in the unified report, a confirmed Link matching no row of
any existing engagement table always gets `engagement_score = null`; its
`content_type` is `"unknown"` when both tables exist or neither does, but in a
single-table configuration every row — matched or not — is tagged with that
table's constant content type (`'image'::text` / `'reel'::text`).  A Link
matched in `concept_analytics` gets `content_type = "image"` whenever that
table exists.  Every reported row is the formatted row of some confirmed
stored post. -/
theorem claim_C6_unified_rows (tables : EngagementTables) (q : Post) :
    ((∀ t ∈ tables.concept_analytics, find_engagement t q = none) →
     (∀ t ∈ tables.concept_analytics_reels, find_engagement t q = none) →
       (unified_post_row tables q).engagement_score = none ∧
       ((tables.concept_analytics.isSome ↔ tables.concept_analytics_reels.isSome) →
          (unified_post_row tables q).content_type = "unknown") ∧
       (tables.concept_analytics.isSome → tables.concept_analytics_reels = none →
          (unified_post_row tables q).content_type = "image") ∧
       (tables.concept_analytics = none → tables.concept_analytics_reels.isSome →
          (unified_post_row tables q).content_type = "reel")) ∧
    (∀ t, tables.concept_analytics = some t → (find_engagement t q).isSome →
       (unified_post_row tables q).content_type = "image") ∧
    (∀ (posts : List Post) (r : UnifiedPostRow),
       r ∈ unified_report_posts posts tables →
       ∃ s ∈ posts, s.confirmed = true ∧ r = unified_post_row tables s) := by
  obtain ⟨ca, car⟩ := tables
  refine ⟨?_, ?_, ?_⟩
  · intro h1 h2
    cases ca with
    | none =>
        cases car with
        | none => simp [unified_post_row, sql_engagement_score, sql_content_type,
            py_score]
        | some lcar =>
            have h2' := h2 lcar rfl
            simp [unified_post_row, sql_engagement_score, sql_content_type,
              py_score, h2']
    | some lca =>
        have h1' := h1 lca rfl
        cases car with
        | none => simp [unified_post_row, sql_engagement_score, sql_content_type,
            py_score, h1']
        | some lcar =>
            have h2' := h2 lcar rfl
            simp [unified_post_row, sql_engagement_score, sql_content_type,
              py_score, h1', h2']
  · intro t ht hmatch
    cases ca with
    | none => simp at ht
    | some lca =>
        cases ht
        cases car with
        | none => simp [unified_post_row, sql_content_type]
        | some lcar => simp [unified_post_row, sql_content_type, hmatch]
  · intro posts r hr
    unfold unified_report_posts at hr
    rcases List.mem_map.mp hr with ⟨s, hs, rfl⟩
    have hs2 := List.take_subset 200 _ hs
    have hs3 := (List.perm_insertionSort confirmed_at_desc
      (posts.filter (fun q => q.confirmed))).mem_iff.mp hs2
    rcases List.mem_filter.mp hs3 with ⟨hmem, hcf⟩
    exact ⟨s, hmem, hcf, rfl⟩

/-- C6 (counterexample to the claim as stated): in the images-only
configuration, a confirmed Link with no matching row in the (existing) image
table is reported with `content_type = "image"`, not `"unknown"` — the
single-table SQL branch hardcodes the content type for every row. -/
theorem claim_C6_counterexample :
    unified_report_posts [basePost] (EngagementTables.mk (some []) none)
      = [unified_post_row (EngagementTables.mk (some []) none) basePost] ∧
    find_engagement [] basePost = none ∧
    (unified_post_row (EngagementTables.mk (some []) none)
        basePost).engagement_score = none ∧
    (unified_post_row (EngagementTables.mk (some []) none)
        basePost).content_type = "image" ∧
    ("image" : String) ≠ "unknown" := by
  decide

/-- Witness for `claim_C6_unified_rows`: both tables exist and are empty, so a
confirmed post matches nothing, gets a null engagement score and content type
`"unknown"`. -/
theorem claim_C6_witness :
    (unified_post_row (EngagementTables.mk (some []) (some []))
        basePost).engagement_score = none ∧
    (unified_post_row (EngagementTables.mk (some []) (some []))
        basePost).content_type = "unknown" := by
  have h := (claim_C6_unified_rows (EngagementTables.mk (some []) (some []))
      basePost).1 (by intro t ht; simp at ht; subst ht; rfl)
    (by intro t ht; simp at ht; subst ht; rfl)
  exact ⟨h.1, h.2.1 (by simp)⟩

/-- Python's `max(int(n or 1), 1)` equals `max(n, 1)` on a count. -/
theorem max_pyOr1 (n : Nat) : max (pyOr1 n) 1 = max n 1 := by
  unfold pyOr1
  rcases Nat.eq_zero_or_pos n with h | h
  · simp [h]
  · rw [if_neg (by omega)]

/-- C7: for every Link row of the referral report,
`funnel_score = clicks + leads*10 + conversions*50`,
`lead_to_click_rate = leads / max(clicks, 1)` and
`conversion_rate = conversions / max(leads, 1)`, both as percentages rounded
to one decimal; in particular clicks=10, leads=2, conversions=1 gives
funnel_score 80, lead_to_click_rate 20.0 and conversion_rate 50.0. -/
theorem claim_C7_referral_rates :
    (∀ q : Post,
       (referral_post_out q).funnel_score
         = q.clicks + q.referral_leads * 10 + q.referral_conversions * 50 ∧
       (referral_post_out q).lead_to_click_rate
         = pyRound1 ((q.referral_leads : ℚ) / (max q.clicks 1 : Nat) * 100) ∧
       (referral_post_out q).conversion_rate
         = pyRound1 ((q.referral_conversions : ℚ)
             / (max q.referral_leads 1 : Nat) * 100)) ∧
    ((referral_post_out c7post).funnel_score = 80 ∧
     (referral_post_out c7post).lead_to_click_rate = 20 ∧
     (referral_post_out c7post).conversion_rate = 50) := by
  constructor
  · intro q
    unfold referral_post_out
    rw [max_pyOr1, max_pyOr1]
    exact ⟨rfl, rfl, rfl⟩
  · refine ⟨rfl, ?_, ?_⟩
    · show pyRound1 ((2 : ℚ) / (max (pyOr1 10) 1 : Nat) * 100) = 20
      norm_num [pyOr1, pyRound1, roundHalfEven]
    · show pyRound1 ((1 : ℚ) / (max (pyOr1 2) 1 : Nat) * 100) = 50
      norm_num [pyOr1, pyRound1, roundHalfEven]

/-- C10: the reported `engagement_score` of a unified-report row is null
exactly when the fetched SQL value is NULL or exactly 0 — Python's
`float(x) if x else None` maps the falsy score 0 to None, making a genuine
zero indistinguishable from absent engagement data; in particular a Link whose
matched image-table row carries `engagement_score = 0` is reported null. -/
theorem claim_C10_zero_score_null (tables : EngagementTables) (q : Post) :
    ((unified_post_row tables q).engagement_score = none ↔
       (sql_engagement_score tables q = none ∨
        sql_engagement_score tables q = some 0)) ∧
    (∀ (t : List EngagementRow) (row : EngagementRow),
       tables.concept_analytics = some t →
       find_engagement t q = some row →
       row.engagement_score = some 0 →
       (unified_post_row tables q).engagement_score = none) := by
  constructor
  · rcases h : sql_engagement_score tables q with _ | s
    · simp [unified_post_row, py_score, h]
    · by_cases hs : s = 0
      · simp [unified_post_row, py_score, h, hs]
      · simp [unified_post_row, py_score, h, hs]
  · intro t row ht hrow hscore
    obtain ⟨ca, car⟩ := tables
    cases ht
    have hsql : sql_engagement_score (EngagementTables.mk (some t) car) q
        = some 0 := by
      cases car with
      | none => simp [sql_engagement_score, hrow, hscore]
      | some lcar => simp [sql_engagement_score, hrow, hscore, Option.or]
    simp [unified_post_row, py_score, hsql]

/-- Witness for `claim_C10_zero_score_null`: a matched image-table row with
score exactly 0 is reported as null. -/
theorem claim_C10_witness :
    (unified_post_row
        (EngagementTables.mk
          (some [EngagementRow.mk (some "AY1") (some "facebook") (some 0)]) none)
        basePost).engagement_score = none :=
  (claim_C10_zero_score_null
      (EngagementTables.mk
        (some [EngagementRow.mk (some "AY1") (some "facebook") (some 0)]) none)
      basePost).2
    [EngagementRow.mk (some "AY1") (some "facebook") (some 0)]
    (EngagementRow.mk (some "AY1") (some "facebook") (some 0)) rfl (by decide) rfl

/-- C8: `generate_unique_short_id` never returns an id already present in the
store; and when the first 10 length-6 candidates all collide while the store
holds no 7-character id (as when it was pre-populated with the colliding
6-character candidates), the recursion moves to length 7 with a fresh attempt
budget and the returned id has length 7. -/
theorem claim_C8_generate_unique (store : List String) (gen : Nat → Nat → String) :
    (∀ (fuel length max_attempts : Nat) (s : String),
       generate_unique_short_id store gen fuel length max_attempts = some s →
       s ∉ store) ∧
    (∀ fuel : Nat, 2 ≤ fuel →
       (∀ l i, (gen l i).length = l) →
       (∀ i, i < 10 → store.contains (gen 6 i) = true) →
       (∀ s ∈ store, s.length ≠ 7) →
       generate_unique_short_id store gen fuel 6 10 = some (gen 7 0) ∧
       (gen 7 0).length = 7) := by
  constructor
  · intro fuel
    induction fuel with
    | zero => intro l ma s h; simp [generate_unique_short_id] at h
    | succ f ih =>
        intro l ma s h
        rw [generate_unique_short_id] at h
        rcases hfs : (List.range ma).findSome? (fun attempt =>
            let short_id := gen l attempt
            if store.contains short_id then none else some short_id)
          with _ | found
        · rw [hfs] at h
          exact ih _ _ _ h
        · rw [hfs] at h
          cases h
          obtain ⟨a, _, hfa⟩ := List.exists_of_findSome?_eq_some hfs
          by_cases hc : store.contains (gen l a) = true
          · simp [hc] at hfa
            exact hfa.2 ▸ hfa.1
          · simp only [hc, Bool.false_eq_true, if_false, Option.some_inj] at hfa
            intro hmem
            rw [hfa] at hc
            exact hc (contains_iff_mem.mpr hmem)
  · intro fuel hfuel hlen hcoll hstore
    obtain ⟨f, rfl⟩ : ∃ f, fuel = f + 2 := ⟨fuel - 2, by omega⟩
    have h6 : (List.range 10).findSome? (fun attempt =>
        let short_id := gen 6 attempt
        if store.contains short_id then none else some short_id) = none := by
      rw [List.findSome?_eq_none_iff]
      intro a ha
      have hc := contains_iff_mem.mp (hcoll a (List.mem_range.mp ha))
      simp [hc]
    have h7 : store.contains (gen 7 0) = false := by
      rcases h : store.contains (gen 7 0) with _ | _
      · rfl
      · exact absurd (hlen 7 0) (hstore _ (contains_iff_mem.mp h))
    have h7' : gen 7 0 ∉ store :=
      fun hm => absurd (contains_iff_mem.mpr hm) (by rw [h7]; decide)
    refine ⟨?_, hlen 7 0⟩
    rw [generate_unique_short_id, h6, generate_unique_short_id]
    rw [show List.range 10 = 0 :: [1, 2, 3, 4, 5, 6, 7, 8, 9] from rfl,
      List.findSome?_cons]
    simp [h7']

/-- Witness for `claim_C8_generate_unique`: the store holds exactly the single
candidate the oracle proposes at length 6 (so all 10 attempts collide), and
the first length-7 candidate is returned. -/
theorem claim_C8_witness :
    generate_unique_short_id [String.mk (List.replicate 6 'a')]
        (fun l _ => String.mk (List.replicate l 'a')) 2 6 10
      = some (String.mk (List.replicate 7 'a')) ∧
    (String.mk (List.replicate 7 'a')).length = 7 :=
  (claim_C8_generate_unique [String.mk (List.replicate 6 'a')]
      (fun l _ => String.mk (List.replicate l 'a'))).2 2 (by decide)
    (fun l i => by simp [String.length])
    (by decide)
    (by decide)

/-- C9 (amended): the referral report's per-user summary groups by
`(nonai_user_id, username)` (not by user id alone); within each reported
group, `total_conversions` is the MAXIMUM of `referral_conversions` over the
group's confirmed referral-coded Links while `total_leads` and
`total_link_clicks` are SUMs over the same Links, and the group's user id is
non-null.  For a user whose Links all share one username this is MAX/SUM over
all of that user's confirmed referral-coded Links. -/
theorem claim_C9_user_summary (posts : List Post) (r : ReferralUserRow)
    (hr : r ∈ by_user_rows posts) :
    r.nonai_user_id.isSome = true ∧
    r.total_conversions
      = (((posts.filter referral_user_eligible).filter
            (fun q => (q.nonai_user_id, q.username)
               = (r.nonai_user_id, r.poster_username))).map
           Post.referral_conversions).foldr max 0 ∧
    r.total_leads
      = (((posts.filter referral_user_eligible).filter
            (fun q => (q.nonai_user_id, q.username)
               = (r.nonai_user_id, r.poster_username))).map
           Post.referral_leads).sum ∧
    r.total_link_clicks
      = (((posts.filter referral_user_eligible).filter
            (fun q => (q.nonai_user_id, q.username)
               = (r.nonai_user_id, r.poster_username))).map
           Post.clicks).sum ∧
    r.total_posts
      = ((posts.filter referral_user_eligible).filter
            (fun q => (q.nonai_user_id, q.username)
               = (r.nonai_user_id, r.poster_username))).length := by
  unfold by_user_rows at hr
  have hr2 := (List.perm_insertionSort user_leads_desc _).mem_iff.mp hr
  rcases List.mem_map.mp hr2 with ⟨k, hk, rfl⟩
  have hks : k.1.isSome = true := by
    rcases List.mem_map.mp (List.mem_dedup.mp hk) with ⟨q, hq, hkq⟩
    have he := (List.mem_filter.mp hq).2
    simp only [referral_user_eligible, Bool.and_eq_true] at he
    rw [← hkq]
    exact he.2
  refine ⟨hks, ?_, ?_, ?_, ?_⟩ <;>
    simp [user_row]

/-- C9 (counterexample to the claim as stated): one user (nonai_user_id 1)
posting under two usernames yields two per-user rows; the row for username
"alice" reports total_conversions 5, while the maximum of
referral_conversions over ALL of that user's confirmed referral-coded Links
is 7. -/
theorem claim_C9_counterexample :
    by_user_rows [c9postA, c9postB]
      = [ReferralUserRow.mk (some 1) (some "alice") 1 2 1 5,
         ReferralUserRow.mk (some 1) (some "bob") 1 3 1 7] ∧
    (([c9postA, c9postB].filter
        (fun q => referral_user_eligible q && (q.nonai_user_id == some 1))).map
       Post.referral_conversions).foldr max 0 = 7 ∧
    ((5 : Nat) ≠ 7) := by
  decide

/-- Witness for `claim_C9_user_summary` at the concrete "alice" row. -/
theorem claim_C9_witness :
    (ReferralUserRow.mk (some 1) (some "alice") 1 2 1 5).nonai_user_id.isSome
        = true ∧
    (ReferralUserRow.mk (some 1) (some "alice") 1 2 1 5).total_conversions
      = ((([c9postA, c9postB].filter referral_user_eligible).filter
            (fun q => (q.nonai_user_id, q.username)
               = ((ReferralUserRow.mk (some 1) (some "alice") 1 2 1 5).nonai_user_id,
                  (ReferralUserRow.mk (some 1)
                    (some "alice") 1 2 1 5).poster_username))).map
           Post.referral_conversions).foldr max 0 ∧
    (ReferralUserRow.mk (some 1) (some "alice") 1 2 1 5).total_leads
      = ((([c9postA, c9postB].filter referral_user_eligible).filter
            (fun q => (q.nonai_user_id, q.username)
               = ((ReferralUserRow.mk (some 1) (some "alice") 1 2 1 5).nonai_user_id,
                  (ReferralUserRow.mk (some 1)
                    (some "alice") 1 2 1 5).poster_username))).map
           Post.referral_leads).sum ∧
    (ReferralUserRow.mk (some 1) (some "alice") 1 2 1 5).total_link_clicks
      = ((([c9postA, c9postB].filter referral_user_eligible).filter
            (fun q => (q.nonai_user_id, q.username)
               = ((ReferralUserRow.mk (some 1) (some "alice") 1 2 1 5).nonai_user_id,
                  (ReferralUserRow.mk (some 1)
                    (some "alice") 1 2 1 5).poster_username))).map
           Post.clicks).sum ∧
    (ReferralUserRow.mk (some 1) (some "alice") 1 2 1 5).total_posts
      = (([c9postA, c9postB].filter referral_user_eligible).filter
            (fun q => (q.nonai_user_id, q.username)
               = ((ReferralUserRow.mk (some 1) (some "alice") 1 2 1 5).nonai_user_id,
                  (ReferralUserRow.mk (some 1)
                    (some "alice") 1 2 1 5).poster_username))).length :=
  claim_C9_user_summary [c9postA, c9postB]
    (ReferralUserRow.mk (some 1) (some "alice") 1 2 1 5) (by decide)
